import Mathlib

/-!
Shallow embedding of the `garde-nostd` length-validation core
(`src/garde/src/rules/length/{bytes,chars,simple}.rs`).

A Rust `str`/`String` value is modelled as the list of Unicode scalar
values it decodes to (`RStr`); its byte length (`str::len`) is the sum of
the UTF-8 encoded sizes of its scalars, and its `chars().count()` is the
list length.  The three measurement policies and the shared `Option`
adapter are translated function by function from the source files; the
range check and the error payload, which live in files outside `src/`,
are modelled from the specification.
-/

/-- Modelled from the spec: the `Error` payload built on a range violation
(`src/garde/src/error.rs` is not in scope).  Per spec section 7, a single
failure variant carrying the bound and the actual measured count. -/
structure Error where
  bmin : Nat
  bmax : Nat
  actual : Nat
deriving DecidableEq, Repr

/-- Modelled from the spec: `check_len` (`src/garde/src/rules/length/mod.rs`
is not in scope).  Per spec section 4.1: success iff
`min <= count && count <= max`, both ends inclusive; otherwise a failure
recording the bound and the violating count. -/
def check_len (count mn mx : Nat) : Except Error Unit :=
  if mn ≤ count ∧ count ≤ mx then .ok () else .error ⟨mn, mx, count⟩

/-- UTF-8 encoded size in bytes of one Unicode scalar value (Rust
`char::len_utf8`); used to model `str::len` on the scalar-sequence view of
a string. -/
def utf8Len (c : Char) : Nat :=
  if c.toNat < 0x80 then 1
  else if c.toNat < 0x800 then 2
  else if c.toNat < 0x10000 then 3
  else 4

/-- A Rust `str` / `String` value, viewed as its sequence of Unicode
scalar values. -/
abbrev RStr := List Char

/-- `HasBytes::num_bytes` for string types (`bytes.rs`, `impl_via_len!`):
`self.len()`, the UTF-8 encoded byte length. -/
def num_bytes (s : RStr) : Nat := (s.map utf8Len).sum

/-- `HasChars::num_chars` for string types (`chars.rs`, `impl_via_chars!`):
`self.chars().count()`, the number of Unicode scalar values. -/
def num_chars (s : RStr) : Nat := s.length

/-- `HasSimpleLength::length` for string types (`simple.rs`,
`impl_via_bytes!`): delegates to `HasBytes::num_bytes`. -/
def length_str (s : RStr) : Nat := num_bytes s

/-- `HasBytes::num_bytes` for byte buffers (`bytes.rs`: `&[u8]`, `Vec<u8>`,
`Rc<[u8]>`, `Arc<[u8]>`, `Box<[u8]>`, `[u8; N]`): `self.len()`, the element
count. -/
def num_bytes_buf (b : List (Fin 256)) : Nat := b.length

/-- `HasChars::num_chars` for sequences of decoded characters (`chars.rs`,
`impl_via_len!`: `&[char]`, `Vec<char>`, `Rc<[char]>`, `Arc<[char]>`,
`Box<[char]>`): `self.len()`, the element count. -/
def num_chars_seq (l : List Char) : Nat := l.length

/-- `HasSimpleLength::length` for sequences and ordered collections
(`simple.rs`, `impl_via_len!`: `Vec<T>`, `&[T]`, `BTreeMap`, `BTreeSet`,
`VecDeque`, `BinaryHeap`, `LinkedList`, and the direct `[T; N]` impls):
`self.len()`, the element count. -/
def length_seq {α : Type} (l : List α) : Nat := l.length

/-- `Bytes::validate_num_bytes`, blanket impl for `T: HasBytes`
(`bytes.rs` lines 15-19), at string types:
`check_len(self.num_bytes(), min, max)`. -/
def validate_num_bytes (s : RStr) (mn mx : Nat) : Except Error Unit :=
  check_len (num_bytes s) mn mx

/-- `Chars::validate_num_chars`, blanket impl for `T: HasChars`
(`chars.rs` lines 15-19), at string types:
`check_len(self.num_chars(), min, max)`. -/
def validate_num_chars (s : RStr) (mn mx : Nat) : Except Error Unit :=
  check_len (num_chars s) mn mx

/-- `Simple::validate_length`, blanket impl for `T: HasSimpleLength`
(`simple.rs` lines 17-21), at string types:
`check_len(self.length(), min, max)`. -/
def validate_length (s : RStr) (mn mx : Nat) : Except Error Unit :=
  check_len (length_str s) mn mx

/-- `Simple::validate_length` at sequence/collection types
(blanket impl via `HasSimpleLength`, and the direct `[T; N]` impls at
`simple.rs` lines 90-100, which are `check_len(self.len(), min, max)`). -/
def validate_length_seq {α : Type} (l : List α) (mn mx : Nat) : Except Error Unit :=
  check_len (length_seq l) mn mx

/-- The `Option` adapter shared, with identical bodies, by all three
policies (`bytes.rs` lines 21-28, `chars.rs` lines 21-28, `simple.rs`
lines 23-30): `Some(v)` delegates to the inner value's validate method
`f`, `None` returns `Ok(())`. -/
def validate_opt {α : Type} (f : α → Nat → Nat → Except Error Unit) :
    Option α → Nat → Nat → Except Error Unit
  | some v, mn, mx => f v mn mx
  | none, _, _ => .ok ()

/-- The `apply` entry point of each policy module (`bytes.rs` lines 7-9,
`chars.rs` lines 7-9, `simple.rs` lines 9-11): destructures the bound pair
and invokes the policy's validate method on the value. -/
def apply {α : Type} (validate : α → Nat → Nat → Except Error Unit)
    (v : α) (b : Nat × Nat) : Except Error Unit :=
  validate v b.1 b.2

/-! Helper lemmas. -/

theorem check_len_ok_iff (count mn mx : Nat) :
    check_len count mn mx = .ok () ↔ mn ≤ count ∧ count ≤ mx := by
  unfold check_len
  split
  next h => simp [h]
  next h => simp [h]

theorem utf8Len_pos (c : Char) : 1 ≤ utf8Len c := by
  unfold utf8Len
  split
  · exact Nat.le_refl 1
  split
  · omega
  split <;> omega

theorem utf8Len_le_four (c : Char) : utf8Len c ≤ 4 := by
  unfold utf8Len
  split
  · omega
  split
  · omega
  split <;> omega

theorem length_le_bytes (s : RStr) : s.length ≤ (s.map utf8Len).sum := by
  induction s with
  | nil => simp
  | cons a t ih =>
    simp only [List.map_cons, List.sum_cons, List.length_cons]
    have := utf8Len_pos a
    omega

theorem bytes_le_four_length (s : RStr) : (s.map utf8Len).sum ≤ 4 * s.length := by
  induction s with
  | nil => simp
  | cons a t ih =>
    simp only [List.map_cons, List.sum_cons, List.length_cons]
    have := utf8Len_le_four a
    omega

theorem length_lt_bytes_of_mem {s : RStr} {c : Char} (hc : c ∈ s)
    (h : 1 < utf8Len c) : s.length < (s.map utf8Len).sum := by
  induction s with
  | nil => cases hc
  | cons a t ih =>
    simp only [List.map_cons, List.sum_cons, List.length_cons]
    have ha := utf8Len_pos a
    rcases List.mem_cons.mp hc with rfl | hmem
    · have := length_le_bytes t
      omega
    · have := ih hmem
      omega

theorem check_len_ok (count mn mx : Nat) (h : mn ≤ count ∧ count ≤ mx) :
    check_len count mn mx = .ok () := by
  unfold check_len
  rw [if_pos h]

theorem check_len_not_ok (count mn mx : Nat) (h : ¬(mn ≤ count ∧ count ≤ mx)) :
    check_len count mn mx = .error ⟨mn, mx, count⟩ := by
  unfold check_len
  rw [if_neg h]

theorem check_len_total (count mn mx : Nat) :
    check_len count mn mx = .ok () ∨ check_len count mn mx = .error ⟨mn, mx, count⟩ := by
  unfold check_len
  split
  · exact Or.inl rfl
  · exact Or.inr rfl

/-! Theorems settling the claims. -/

/-- C1: for every measured count and every bound `(min, max)`, the range
check `check_len` — exactly as invoked by the three policies' blanket
validate methods — returns success if and only if `min ≤ count` and
`count ≤ max`; both bound ends are inclusive, so `count = min` and
`count = max` pass whenever they lie in the range. -/
theorem check_len_ok_iff_bounds (count mn mx : Nat) :
    (check_len count mn mx = .ok () ↔ mn ≤ count ∧ count ≤ mx)
    ∧ (∀ s : RStr,
        validate_num_bytes s mn mx = check_len (num_bytes s) mn mx
        ∧ validate_num_chars s mn mx = check_len (num_chars s) mn mx
        ∧ validate_length s mn mx = check_len (length_str s) mn mx) :=
  ⟨check_len_ok_iff count mn mx, fun _ => ⟨rfl, rfl, rfl⟩⟩

/-- C2: for every policy and every bound, validating an absent optional
value (`None`) succeeds unconditionally — the adapter returns `Ok(())`
without measuring — even when `min > 0`, e.g. bound `(1, 1)`. -/
theorem validate_opt_none_ok {α : Type} (f : α → Nat → Nat → Except Error Unit)
    (mn mx : Nat) :
    validate_opt f none mn mx = .ok ()
    ∧ validate_opt validate_num_bytes none mn mx = .ok ()
    ∧ validate_opt validate_num_chars none mn mx = .ok ()
    ∧ validate_opt validate_length none mn mx = .ok ()
    ∧ validate_opt validate_num_bytes none 1 1 = .ok () :=
  ⟨rfl, rfl, rfl, rfl, rfl⟩

/-- C3: for every policy, every inner value `v`, and every bound,
validating `Some(v)` returns exactly the inner value's validation outcome
under that policy and bound, with no wrapping or transformation. -/
theorem validate_opt_some_delegates {α : Type}
    (f : α → Nat → Nat → Except Error Unit) (v : α) (mn mx : Nat) :
    validate_opt f (some v) mn mx = f v mn mx
    ∧ validate_opt validate_num_bytes (some ([] : RStr)) mn mx
        = validate_num_bytes [] mn mx :=
  ⟨rfl, rfl⟩

/-- C4: for every text value the scalar count is at most the byte count;
for a text value `t` containing a multi-byte-encoded scalar the byte count
strictly exceeds the scalar count, and under the bound
`(0, num_bytes t - 1)` the byte policy fails while the scalar policy
succeeds. -/
theorem byte_scalar_divergence (s t : RStr) (h : ∃ c ∈ t, 1 < utf8Len c) :
    num_chars s ≤ num_bytes s
    ∧ num_chars t < num_bytes t
    ∧ validate_num_bytes t 0 (num_bytes t - 1)
        = .error ⟨0, num_bytes t - 1, num_bytes t⟩
    ∧ validate_num_chars t 0 (num_bytes t - 1) = .ok () := by
  obtain ⟨c, hc, hlen⟩ := h
  have hle : num_chars s ≤ num_bytes s := length_le_bytes s
  have hlt : num_chars t < num_bytes t := length_lt_bytes_of_mem hc hlen
  refine ⟨hle, hlt, ?_, ?_⟩
  · exact check_len_not_ok (num_bytes t) 0 (num_bytes t - 1) (by omega)
  · exact check_len_ok (num_chars t) 0 (num_bytes t - 1) (by omega)

/-- C4 witness: the euro sign is a three-byte scalar; on the one-character
string containing it the byte count strictly exceeds the scalar count, and
the bound `(0, 2)` fails the byte policy while passing the scalar
policy. -/
theorem byte_scalar_divergence_witness :
    num_chars ['a'] ≤ num_bytes ['a']
    ∧ num_chars ['€'] < num_bytes ['€']
    ∧ validate_num_bytes ['€'] 0 (num_bytes ['€'] - 1)
        = .error ⟨0, num_bytes ['€'] - 1, num_bytes ['€']⟩
    ∧ validate_num_chars ['€'] 0 (num_bytes ['€'] - 1) = .ok () :=
  byte_scalar_divergence ['a'] ['€'] (by decide)

/-- C5: for every bound with `min > max`, the range check fails for every
count, including 0, returning the failure payload rather than an error or
panic. -/
theorem check_len_empty_range (count mn mx : Nat) (h : mx < mn) :
    check_len count mn mx = .error ⟨mn, mx, count⟩ := by
  unfold check_len
  rw [if_neg]
  omega

/-- C5 witness: with bound `(1, 0)` the count 0 fails the range check. -/
theorem check_len_empty_range_witness :
    check_len 0 1 0 = .error ⟨1, 0, 0⟩ :=
  check_len_empty_range 0 1 0 (by decide)

/-- C6: for every text value and every bound, the simple-length policy
returns exactly the byte-length policy's outcome, since the simple-length
measurement of a text value is the byte count. -/
theorem simple_eq_bytes_on_text (s : RStr) (mn mx : Nat) :
    validate_length s mn mx = validate_num_bytes s mn mx
    ∧ length_str s = num_bytes s :=
  ⟨rfl, rfl⟩

/-- C7: for every sequence of length `n`, the element-count measurements
agree exactly: the simple-length measurement of any ordered collection,
the scalar-sequence measurement of a sequence of decoded characters, and
the byte count of a byte buffer all equal `n`. -/
theorem sequence_measurements_eq {α : Type} (n : Nat) (l : List α)
    (cs : List Char) (bs : List (Fin 256))
    (hl : l.length = n) (hc : cs.length = n) (hb : bs.length = n) :
    length_seq l = n ∧ num_chars_seq cs = n ∧ num_bytes_buf bs = n :=
  ⟨hl, hc, hb⟩

/-- C7 witness: three-element sequences all measure 3. -/
theorem sequence_measurements_eq_witness :
    length_seq ([0, 1, 2] : List Nat) = 3
    ∧ num_chars_seq ['a', 'b', 'c'] = 3
    ∧ num_bytes_buf [0, 0, 0] = 3 :=
  sequence_measurements_eq 3 [0, 1, 2] ['a', 'b', 'c'] [0, 0, 0]
    (by decide) (by decide) (by decide)

/-- C8: every validation entry point is total: for all inputs, including
`min > max` and empty values, it returns a result — either success or the
range-violation failure — and the `apply` entry points are definitionally
the corresponding validate calls. -/
theorem entry_points_total (s : RStr) (o : Option RStr) (l : List Nat)
    (mn mx : Nat) :
    (validate_num_bytes s mn mx = .ok ()
      ∨ validate_num_bytes s mn mx = .error ⟨mn, mx, num_bytes s⟩)
    ∧ (validate_num_chars s mn mx = .ok ()
      ∨ validate_num_chars s mn mx = .error ⟨mn, mx, num_chars s⟩)
    ∧ (validate_length s mn mx = .ok ()
      ∨ validate_length s mn mx = .error ⟨mn, mx, length_str s⟩)
    ∧ (validate_length_seq l mn mx = .ok ()
      ∨ validate_length_seq l mn mx = .error ⟨mn, mx, length_seq l⟩)
    ∧ (validate_opt validate_num_bytes o mn mx = .ok ()
      ∨ ∃ e, validate_opt validate_num_bytes o mn mx = .error e)
    ∧ apply validate_num_bytes s (mn, mx) = validate_num_bytes s mn mx
    ∧ apply validate_num_chars s (mn, mx) = validate_num_chars s mn mx
    ∧ apply validate_length s (mn, mx) = validate_length s mn mx := by
  refine ⟨check_len_total _ mn mx, check_len_total _ mn mx,
    check_len_total _ mn mx, check_len_total _ mn mx, ?_, rfl, rfl, rfl⟩
  cases o with
  | none => exact Or.inl rfl
  | some v =>
    rcases check_len_total (num_bytes v) mn mx with h | h
    · exact Or.inl h
    · exact Or.inr ⟨_, h⟩

/-- C9: the optionality adapter composes through nesting: for a
doubly-wrapped optional value, `None` succeeds, `Some(None)` succeeds, and
`Some(Some(v))` yields exactly the outcome of validating `v`; this holds
for the generic inner validator and for each concrete policy. -/
theorem validate_opt_nested {α : Type} (f : α → Nat → Nat → Except Error Unit)
    (v : α) (s : RStr) (mn mx : Nat) :
    validate_opt (validate_opt f) (none : Option (Option α)) mn mx = .ok ()
    ∧ validate_opt (validate_opt f) (some none) mn mx = .ok ()
    ∧ validate_opt (validate_opt f) (some (some v)) mn mx = f v mn mx
    ∧ validate_opt (validate_opt validate_num_bytes) (some (some s)) mn mx
        = validate_num_bytes s mn mx
    ∧ validate_opt (validate_opt validate_num_chars) (some (some s)) mn mx
        = validate_num_chars s mn mx
    ∧ validate_opt (validate_opt validate_length) (some (some s)) mn mx
        = validate_length s mn mx :=
  ⟨rfl, rfl, rfl, rfl, rfl, rfl⟩

/-- C10: the byte count of a text value is at most four times its scalar
count, each scalar encoding to at most four UTF-8 bytes; hence whenever
the byte policy succeeds for bound `(min, max)`, the scalar policy
succeeds for bound `(⌈min/4⌉, max)` on the same value. -/
theorem bytes_le_four_chars (s : RStr) (mn mx : Nat)
    (h : validate_num_bytes s mn mx = .ok ()) :
    num_bytes s ≤ 4 * num_chars s
    ∧ validate_num_chars s ((mn + 3) / 4) mx = .ok () := by
  have h4 : num_bytes s ≤ 4 * num_chars s := bytes_le_four_length s
  have hb := (check_len_ok_iff (num_bytes s) mn mx).mp h
  have hc : num_chars s ≤ num_bytes s := length_le_bytes s
  refine ⟨h4, (check_len_ok_iff (num_chars s) ((mn + 3) / 4) mx).mpr ?_⟩
  omega

/-- C10 witness: the euro-sign string has 3 bytes and 1 scalar; the byte
policy passes bound `(2, 3)`, and the scalar policy passes `(⌈2/4⌉, 3)`. -/
theorem bytes_le_four_chars_witness :
    num_bytes ['€'] ≤ 4 * num_chars ['€']
    ∧ validate_num_chars ['€'] ((2 + 3) / 4) 3 = .ok () :=
  bytes_le_four_chars ['€'] 2 3 (by rfl)
